import Mathlib

/-!
Verification of the self-healing code-generation loop of the repository
(`src/code_assistant.py`).  The Python code is shallowly embedded: pure
string manipulation becomes Lean functions over `String`/`List Char`,
and the effectful boundaries (the completion service and the child
build/run/test processes) become explicit parameters/oracles:

* the completion client is a function `complete : String → String`
  (prompt text to completion text);
* each child-process invocation's outcome is a `ProcOutcome` (exit code
  with captured streams, or a timeout), supplied through an environment
  record, since the outcome is decided by the host system;
* the per-attempt behaviour of the runner inside `solve_task` is an
  oracle `runner : Nat → String → Bool × String` giving the
  (success, output) pair the chosen test function produced for the code
  of that attempt.

All definitions are executable, so that concrete scenarios evaluate by
`decide`.
-/

namespace CA

set_option maxRecDepth 10000

/-- Model of Python's case conversion `str.lower()` (ASCII letters,
which is all the keywords used by the program need). -/
def lower (s : String) : String :=
  ⟨s.data.map Char.toLower⟩

/-- Boolean substring occurrence on character lists: `listHasSub pat s`
is true iff `pat` occurs contiguously inside `s`.  Model of Python's
`pat in s` for strings. -/
def listHasSub (pat : List Char) : List Char → Bool
  | [] => pat.isEmpty
  | c :: rest => pat.isPrefixOf (c :: rest) || listHasSub pat rest

/-- Model of Python's `pat in s` substring test on `String`s. -/
def containsSubstr (s pat : String) : Bool :=
  listHasSub pat.data s.data

/-- Model of Python's `str.strip()`: drop leading and trailing
whitespace. -/
def pyStrip (l : List Char) : List Char :=
  ((l.dropWhile Char.isWhitespace).reverse.dropWhile Char.isWhitespace).reverse

/-- Model of Python's `str.split('\n')`: split a character list at every
newline; `pySplit s` always returns at least one (possibly empty)
line. -/
def pySplit : List Char → List (List Char)
  | [] => [[]]
  | c :: rest =>
    if c = '\n' then [] :: pySplit rest
    else
      match pySplit rest with
      | [] => [[c]]
      | l :: ls => (c :: l) :: ls

/-- Model of Python's `'\n'.join(lines)`. -/
def pyJoin : List (List Char) → List Char
  | [] => []
  | [l] => l
  | l :: ls => l ++ '\n' :: pyJoin ls

/-- Fuel-bounded worker for `strReplace`; the fuel is the length of the
scanned list, which bounds the number of steps since every step consumes
at least one character.  An empty pattern leaves the text unchanged (the
program only ever replaces the nonempty patterns "rust"/"Rust"). -/
def replaceFuel (pat rep : List Char) : Nat → List Char → List Char
  | 0, s => s
  | Nat.succ fuel, s =>
    match s with
    | [] => []
    | c :: rest =>
      if pat.isPrefixOf (c :: rest) && !pat.isEmpty then
        rep ++ replaceFuel pat rep fuel ((c :: rest).drop pat.length)
      else c :: replaceFuel pat rep fuel rest

/-- Model of Python's `s.replace(pat, rep)`: replace every occurrence of
`pat` in `s` by `rep`, scanning left to right without overlap. -/
def strReplace (s pat rep : String) : String :=
  ⟨replaceFuel pat.data rep.data s.data.length s.data⟩

/-- `re.sub(r'[^a-zA-Z0-9]', '_', ·)` acts characterwise: every
non-alphanumeric character becomes an underscore. -/
def subChar (c : Char) : Char :=
  if c.isAlphanum then c else '_'

/-- `task_name` from `solve_task` (line 455):
`re.sub(r'[^a-zA-Z0-9]', '_', task.lower())[:30]`. -/
def task_name (task : String) : String :=
  ⟨(((lower task).data.map subChar).take 30)⟩

/-- File extension chosen in `solve_task` (line 468):
`'rs' if language == 'rust' else 'py'`. -/
def extFor (language : String) : String :=
  if language == "rust" then "rs" else "py"

/-- The audit filename written before testing attempt `attempt`
(line 468): `f"{task_name}_attempt_{attempt}.{ext}"`. -/
def attemptFilename (task language : String) (attempt : Nat) : String :=
  task_name task ++ "_attempt_" ++ toString attempt ++ "." ++ extFor language

/-- Language resolution and the silent fallback rewrite at the top of
`solve_task` (lines 441-447): the language is "rust" iff the lowercased
task mentions "rust"; if rust was chosen but the toolchain is absent,
the language becomes "python" and the task text undergoes
`task.replace("rust", "python").replace("Rust", "Python")`.
Returns (resolved language, resolved task text). -/
def resolve (rustAvailable : Bool) (task : String) : String × String :=
  let language := if containsSubstr (lower task) "rust" then "rust" else "python"
  if language == "rust" && !rustAvailable then
    ("python", strReplace (strReplace task "rust" "python") "Rust" "Python")
  else
    (language, task)

/-- The Rust variant of the base prompt built by `generate_code`
(lines 238-246). -/
def rustBasePrompt (task : String) : String :=
  "\nWrite a complete Rust program for: " ++ task ++ "\n\nRequirements:\n- Include all necessary dependencies in Cargo.toml format at the top as comments\n- Include comprehensive tests using #[cfg(test)]\n- Make sure the code compiles and all tests pass\n- Use proper error handling\n"

/-- The Python variant of the base prompt built by `generate_code`
(lines 248-256). -/
def pythonBasePrompt (task : String) : String :=
  "\nWrite a complete Python program for: " ++ task ++ "\n\nRequirements:\n- Include all necessary imports\n- Include comprehensive tests using pytest or unittest\n- Make sure the code runs without errors\n- Use proper error handling\n"

/-- Dispatch on `language.lower() == "rust"` (line 237). -/
def basePrompt (task language : String) : String :=
  if lower language == "rust" then rustBasePrompt task else pythonBasePrompt task

/-- Text prepended to the previous diagnostic in the correction
instruction (lines 258-265). -/
def errIntro : String :=
  "\n\nIMPORTANT: The previous attempt failed with this error:\n"

/-- Text appended after the previous diagnostic in the correction
instruction (lines 258-265). -/
def errOutro : String :=
  "\n\nPlease fix this error in your new implementation.\n"

/-- The full prompt `generate_code` submits: the base prompt, extended
with the correction instruction when a previous (truthy, i.e. nonempty)
error string is present. -/
def fullPrompt (task language : String) (previousError : Option String) : String :=
  match previousError with
  | none => basePrompt task language
  | some e =>
    if e == "" then basePrompt task language
    else basePrompt task language ++ (errIntro ++ e ++ errOutro)

/-- `generate_code` (lines 234-273): builds the prompt and returns the
completion client's single textual response. -/
def generate_code (complete : String → String) (task language : String)
    (previousError : Option String) : String :=
  complete (fullPrompt task language previousError)

/-! ### The mock completion client (lines 27-229)

`MockOpenAI.Chat.Completions.create` keys deterministic boilerplate
source on keywords of the message content.  The code strings below are
the verbatim `mock_code` literals of the source (braces written with
hex escapes). -/

/-- Mock Rust quicksort program (lines 39-78). -/
def mockRustQuicksort : String :=
  "fn quicksort(arr: &mut [i32]) \x7b\n    if arr.len() <= 1 \x7b\n        return;\n    \x7d\n    let pivot = partition(arr);\n    let (left, right) = arr.split_at_mut(pivot);\n    quicksort(left);\n    quicksort(&mut right[1..]);\n\x7d\n\nfn partition(arr: &mut [i32]) -> usize \x7b\n    let pivot = arr[0];\n    let mut i = 1;\n    for j in 1..arr.len() \x7b\n        if arr[j] <= pivot \x7b\n            arr.swap(i, j);\n            i += 1;\n        \x7d\n    \x7d\n    arr.swap(0, i - 1);\n    i - 1\n\x7d\n\nfn main() \x7b\n    let mut arr = [64, 34, 25, 12, 22, 11, 90];\n    quicksort(&mut arr);\n    println!(\"\x7b:?\x7d\", arr);\n\x7d\n\n#[cfg(test)]\nmod tests \x7b\n    use super::*;\n    \n    #[test]\n    fn test_quicksort() \x7b\n        let mut arr = [3, 1, 4, 1, 5];\n        quicksort(&mut arr);\n        assert_eq!(arr, [1, 1, 3, 4, 5]);\n    \x7d\n\x7d"

/-- Mock Rust hello-world program (lines 80-90), also returned for any
Rust task that is not a quicksort task. -/
def mockRustHello : String :=
  "fn main() \x7b\n    println!(\"Hello, World!\");\n\x7d\n\n#[cfg(test)]\nmod tests \x7b\n    #[test]\n    fn test_hello() \x7b\n        assert_eq!(2 + 2, 4);\n    \x7d\n\x7d"

/-- Mock Python quicksort program (lines 93-113). -/
def mockPyQuicksort : String :=
  "def quicksort(arr):\n    if len(arr) <= 1:\n        return arr\n    pivot = arr[len(arr) // 2]\n    left = [x for x in arr if x < pivot]\n    middle = [x for x in arr if x == pivot]\n    right = [x for x in arr if x > pivot]\n    return quicksort(left) + middle + quicksort(right)\n\nif __name__ == \"__main__\":\n    arr = [64, 34, 25, 12, 22, 11, 90]\n    sorted_arr = quicksort(arr)\n    print(f\"Sorted array: \x7bsorted_arr\x7d\")\n\nimport unittest\n\nclass TestQuicksort(unittest.TestCase):\n    def test_quicksort(self):\n        self.assertEqual(quicksort([3, 1, 4, 1, 5]), [1, 1, 3, 4, 5])\n        self.assertEqual(quicksort([]), [])\n        self.assertEqual(quicksort([1]), [1])"

/-- Mock Python binary-search-tree program (lines 115-164). -/
def mockPyBST : String :=
  "class TreeNode:\n    def __init__(self, val=0):\n        self.val = val\n        self.left = None\n        self.right = None\n\nclass BST:\n    def __init__(self):\n        self.root = None\n    \n    def insert(self, val):\n        self.root = self._insert(self.root, val)\n    \n    def _insert(self, node, val):\n        if not node:\n            return TreeNode(val)\n        if val < node.val:\n            node.left = self._insert(node.left, val)\n        else:\n            node.right = self._insert(node.right, val)\n        return node\n    \n    def search(self, val):\n        return self._search(self.root, val)\n    \n    def _search(self, node, val):\n        if not node or node.val == val:\n            return node is not None\n        if val < node.val:\n            return self._search(node.left, val)\n        return self._search(node.right, val)\n\nif __name__ == \"__main__\":\n    bst = BST()\n    for val in [5, 3, 7, 2, 4, 6, 8]:\n        bst.insert(val)\n    print(f\"Search 4: \x7bbst.search(4)\x7d\")\n    print(f\"Search 9: \x7bbst.search(9)\x7d\")\n\nimport unittest\n\nclass TestBST(unittest.TestCase):\n    def test_bst(self):\n        bst = BST()\n        bst.insert(5)\n        bst.insert(3)\n        bst.insert(7)\n        self.assertTrue(bst.search(5))\n        self.assertTrue(bst.search(3))\n        self.assertFalse(bst.search(10))"

/-- Mock Python fibonacci-with-memoization program (lines 166-198). -/
def mockPyFib : String :=
  "def fibonacci_memo(n, memo=\x7b\x7d):\n    if n in memo:\n        return memo[n]\n    if n <= 1:\n        return n\n    memo[n] = fibonacci_memo(n-1, memo) + fibonacci_memo(n-2, memo)\n    return memo[n]\n\ndef fibonacci_iterative(n):\n    if n <= 1:\n        return n\n    a, b = 0, 1\n    for _ in range(2, n + 1):\n        a, b = b, a + b\n    return b\n\nif __name__ == \"__main__\":\n    n = 10\n    print(f\"Fibonacci(\x7bn\x7d) with memoization: \x7bfibonacci_memo(n)\x7d\")\n    print(f\"Fibonacci(\x7bn\x7d) iterative: \x7bfibonacci_iterative(n)\x7d\")\n\nimport unittest\n\nclass TestFibonacci(unittest.TestCase):\n    def test_fibonacci_memo(self):\n        self.assertEqual(fibonacci_memo(0), 0)\n        self.assertEqual(fibonacci_memo(1), 1)\n        self.assertEqual(fibonacci_memo(10), 55)\n    \n    def test_fibonacci_iterative(self):\n        self.assertEqual(fibonacci_iterative(0), 0)\n        self.assertEqual(fibonacci_iterative(1), 1)\n        self.assertEqual(fibonacci_iterative(10), 55)"

/-- Mock Python hello-world program (lines 200-210), also the default
for any task matching no other keyword. -/
def mockPyHello : String :=
  "def hello():\n    return \"Hello, World!\"\n\nif __name__ == \"__main__\":\n    print(hello())\n\nimport unittest\n\nclass TestHello(unittest.TestCase):\n    def test_hello(self):\n        self.assertEqual(hello(), \"Hello, World!\")"

/-- Keyword dispatch of `MockOpenAI.Chat.Completions.create`
(lines 37-210): `task` is the content of the first (only) message. -/
def mock_create (task : String) : String :=
  if containsSubstr (lower task) "rust" then
    if containsSubstr (lower task) "quicksort" then mockRustQuicksort
    else mockRustHello
  else
    if containsSubstr (lower task) "quicksort" then mockPyQuicksort
    else if containsSubstr (lower task) "binary search tree" then mockPyBST
    else if containsSubstr (lower task) "fibonacci" && containsSubstr (lower task) "memoization" then mockPyFib
    else mockPyHello

/-! ### The sandbox runner (lines 275-435)

Each `subprocess.run` call either completes with an exit code and
captured output streams or raises `TimeoutExpired`; that outcome is
decided by the host toolchain, so it is an input of the model.  A
non-timeout host exception (caught by the generic `except Exception`
arm) is modelled by the optional `exn` field carrying `str(e)`. -/

/-- Outcome of one bounded child-process invocation. -/
inductive ProcOutcome where
  | completed (returncode : Int) (stdout stderr : String)
  | timedOut
deriving DecidableEq, Repr

/-- Diagnostic for a missing Rust toolchain (line 325). -/
def rustNotInstalledMsg : String :=
  "Rust/Cargo not installed. Install with: curl --proto \x27=https\x27 --tlsv1.2 -sSf https://sh.rustup.rs | sh"

/-- Diagnostic for a failed `cargo build` (line 341). -/
def buildFailedMsg (stderr : String) : String :=
  "Build failed:\n" ++ stderr

/-- Diagnostic for failed tests (lines 353 and 423, same literal in the
Rust and Python paths). -/
def testsFailedMsg (stderr : String) : String :=
  "Tests failed:\n" ++ stderr

/-- The dedicated timeout diagnostic of the Rust path (line 358). -/
def rustTimeoutMsg : String := "Compilation/testing timed out"

/-- Success message of the Rust path (line 355). -/
def rustSuccessMsg : String := "All tests passed!"

/-- Diagnostic for a Python syntax-check failure (line 391). -/
def syntaxErrorMsg (stderr : String) : String :=
  "Syntax error:\n" ++ stderr

/-- Diagnostic for a Python runtime failure (line 402). -/
def runtimeErrorMsg (stderr : String) : String :=
  "Runtime error:\n" ++ stderr

/-- The dedicated timeout diagnostic of the Python path (line 428). -/
def pyTimeoutMsg : String := "Code execution timed out"

/-- Success message of the Python path (line 425). -/
def pySuccessMsg : String := "Code executed successfully!"

/-- Diagnostic for a non-timeout host exception (lines 360 and 430). -/
def hostErrorMsg (e : String) : String :=
  "Error: " ++ e

/-- Host-decided outcomes of one `test_rust_code` invocation: toolchain
presence, an optional non-timeout exception, and the outcomes of the
`cargo build` and `cargo test` child processes. -/
structure RustEnv where
  rustAvailable : Bool
  exn : Option String
  buildOutcome : ProcOutcome
  testOutcome : ProcOutcome
deriving DecidableEq, Repr

/-- `test_rust_code` (lines 321-360): missing toolchain short-circuits;
a timeout at either step yields the dedicated timeout diagnostic; a
nonzero build exit yields the build diagnostic with the captured error
stream and skips the test step; a nonzero test exit yields the test
diagnostic; otherwise success. -/
def test_rust_code (env : RustEnv) (code : String) : Bool × String :=
  if !env.rustAvailable then (false, rustNotInstalledMsg)
  else
    match env.exn with
    | some e => (false, hostErrorMsg e)
    | none =>
      match env.buildOutcome with
      | ProcOutcome.timedOut => (false, rustTimeoutMsg)
      | ProcOutcome.completed rc _ err =>
        if rc ≠ 0 then (false, buildFailedMsg err)
        else
          match env.testOutcome with
          | ProcOutcome.timedOut => (false, rustTimeoutMsg)
          | ProcOutcome.completed rc2 _ err2 =>
            if rc2 ≠ 0 then (false, testsFailedMsg err2)
            else (true, rustSuccessMsg)

/-- Host-decided outcomes of one `test_python_code` invocation: an
optional non-timeout exception and the outcomes of the syntax-check,
run, pytest and unittest child processes. -/
structure PyEnv where
  exn : Option String
  compileOutcome : ProcOutcome
  runOutcome : ProcOutcome
  pytestOutcome : ProcOutcome
  unittestOutcome : ProcOutcome
deriving DecidableEq, Repr

/-- `test_python_code` (lines 372-435): syntax check, then the run,
then — only when the source mentions a test framework — pytest with a
unittest fallback; any step's timeout yields the dedicated timeout
diagnostic. -/
def test_python_code (env : PyEnv) (code : String) : Bool × String :=
  match env.exn with
  | some e => (false, hostErrorMsg e)
  | none =>
    match env.compileOutcome with
    | ProcOutcome.timedOut => (false, pyTimeoutMsg)
    | ProcOutcome.completed rc _ err =>
      if rc ≠ 0 then (false, syntaxErrorMsg err)
      else
        match env.runOutcome with
        | ProcOutcome.timedOut => (false, pyTimeoutMsg)
        | ProcOutcome.completed rc2 _ err2 =>
          if rc2 ≠ 0 then (false, runtimeErrorMsg err2)
          else
            if containsSubstr code "pytest" || containsSubstr code "unittest" then
              match env.pytestOutcome with
              | ProcOutcome.timedOut => (false, pyTimeoutMsg)
              | ProcOutcome.completed rc3 _ _ =>
                if rc3 ≠ 0 then
                  match env.unittestOutcome with
                  | ProcOutcome.timedOut => (false, pyTimeoutMsg)
                  | ProcOutcome.completed rc4 _ err4 =>
                    if rc4 ≠ 0 then (false, testsFailedMsg err4)
                    else (true, pySuccessMsg)
                else (true, pySuccessMsg)
            else (true, pySuccessMsg)

/-! ### `create_rust_project` (lines 275-311) -/

/-- The predicate of line 305: a line is dropped from `main.rs` when its
stripped form starts with `//` and the line contains `=` or `[`. -/
def droppedLine (line : List Char) : Bool :=
  ("//").data.isPrefixOf (pyStrip line) && (line.contains '=' || line.contains '[')

/-- The `clean_code` written to `main.rs` (lines 305-309): the newline
join of the input lines that are not dropped. -/
def mainRsContent (code : String) : String :=
  ⟨pyJoin ((pySplit code.data).filter (fun l => ! droppedLine l))⟩

/-- The fixed `Cargo.toml` header (lines 280-286). -/
def cargoHeader : String :=
  "[package]\nname = \"test_project\"\nversion = \"0.1.0\"\nedition = \"2021\"\n\n[dependencies]\n"

/-- The comment-scan predicate of line 290: stripped line starts with
`//` and the line contains `=` or its lowercase form contains
"version". -/
def depCommentLine (line : List Char) : Bool :=
  ("//").data.isPrefixOf (pyStrip line) &&
    (line.contains '=' || listHasSub ("version").data (line.map Char.toLower))

/-- The dependency lines appended to the manifest (lines 289-293):
`cargo_line = line.strip()[2:].strip()`, kept when it does not start
with `[` and contains `=`. -/
def cargoDepLines (lines : List (List Char)) : List Char :=
  lines.foldl
    (fun acc line =>
      if depCommentLine line then
        let cl := pyStrip ((pyStrip line).drop 2)
        if ! ("[").data.isPrefixOf cl && cl.contains '=' then acc ++ cl ++ ['\n']
        else acc
      else acc)
    []

/-- The full `Cargo.toml` text produced by `create_rust_project`. -/
def cargoTomlFor (code : String) : String :=
  ⟨cargoHeader.data ++ cargoDepLines (pySplit code.data)⟩

/-! ### The retry controller `solve_task` (lines 437-500) -/

/-- The attempt ceiling `self.max_attempts` (line 232). -/
def maxAttempts : Nat := 3

/-- Terminal record returned by `solve_task`: the success dictionary
(lines 482-488) or the failure dictionary (lines 495-500). -/
inductive Result where
  | succeeded (attempts : Nat) (finalCode filename output : String)
  | failed (attempts : Nat) (finalError : Option String) (finalCode : Option String)
deriving DecidableEq, Repr

/-- The `success` flag of the terminal record. -/
def Result.success : Result → Bool
  | Result.succeeded _ _ _ _ => true
  | Result.failed _ _ _ => false

/-- The `attempts` field of the terminal record. -/
def Result.attempts : Result → Nat
  | Result.succeeded a _ _ _ => a
  | Result.failed a _ _ => a

/-- The `while attempt <= self.max_attempts` loop of `solve_task`
(lines 460-500): generate, save (filename recorded in the success
record), test via the runner oracle, and on failure carry the output
forward as `previous_error` and retry.  The fuel argument counts the
remaining loop iterations (`maxAttempts + 1 - attempt`); when it runs
out the failure record reports `maxAttempts` attempts, the last
diagnostic and the last generated code, exactly as lines 495-500 do. -/
def solveLoop (gen : Option String → String) (runner : Nat → String → Bool × String)
    (taskName ex : String) :
    Nat → Nat → Option String → Option String → Result
  | 0, _, prevErr, lastCode => Result.failed maxAttempts prevErr lastCode
  | Nat.succ fuel, attempt, prevErr, _ =>
    match runner attempt (gen prevErr) with
    | (true, output) =>
      Result.succeeded attempt (gen prevErr)
        (taskName ++ "_attempt_" ++ toString attempt ++ "." ++ ex) output
    | (false, output) =>
      solveLoop gen runner taskName ex fuel (attempt + 1) (some output) (some (gen prevErr))

/-- The generation function `solve_task` uses once language and task
text are resolved: attempt-independent except through the threaded
previous error. -/
def taskGen (rustAvailable : Bool) (complete : String → String) (task : String) :
    Option String → String :=
  fun previousError =>
    generate_code complete (resolve rustAvailable task).2 (resolve rustAvailable task).1
      previousError

/-- `solve_task` (lines 437-500), with the completion client and the
per-attempt runner outcomes supplied as oracles. -/
def solveTask (rustAvailable : Bool) (complete : String → String)
    (runner : Nat → String → Bool × String) (task : String) : Result :=
  solveLoop (taskGen rustAvailable complete task) runner
    (task_name (resolve rustAvailable task).2) (extFor (resolve rustAvailable task).1)
    maxAttempts 1 none none

/-! ### Attempt traces

Derived descriptions of what each attempt of the loop sees: the
`previous_error` fed into attempt `k`, the code generated there, and
the runner verdict. -/

/-- The `previous_error` value at the start of attempt `k` (attempt
numbering starts at 1; index 0 is unused). -/
def prevErrAt (gen : Option String → String) (runner : Nat → String → Bool × String) :
    Nat → Option String
  | 0 => none
  | 1 => none
  | Nat.succ (Nat.succ k) =>
    some (runner (Nat.succ k) (gen (prevErrAt gen runner (Nat.succ k)))).2

/-- The code generated at attempt `k`. -/
def codeAt (gen : Option String → String) (runner : Nat → String → Bool × String)
    (k : Nat) : String :=
  gen (prevErrAt gen runner k)

/-- The runner verdict at attempt `k`. -/
def outcomeAt (gen : Option String → String) (runner : Nat → String → Bool × String)
    (k : Nat) : Bool × String :=
  runner k (codeAt gen runner k)

/-- Whether the runner reports pass at attempt `k`. -/
def passAt (gen : Option String → String) (runner : Nat → String → Bool × String)
    (k : Nat) : Bool :=
  (outcomeAt gen runner k).1

/-- The diagnostic text the runner produces at attempt `k`. -/
def diagAt (gen : Option String → String) (runner : Nat → String → Bool × String)
    (k : Nat) : String :=
  (outcomeAt gen runner k).2

/-- The prompt submitted to the completion client at attempt `k` of
`solveTask`. -/
def promptAt (rustAvailable : Bool) (complete : String → String)
    (runner : Nat → String → Bool × String) (task : String) (k : Nat) : String :=
  fullPrompt (resolve rustAvailable task).2 (resolve rustAvailable task).1
    (prevErrAt (taskGen rustAvailable complete task) runner k)

/-! ### General helper lemmas -/

theorem str_ext : ∀ {a b : String}, a.data = b.data → a = b := by
  intro a b h
  cases a
  cases b
  cases h
  rfl

theorem str_data_append (a b : String) : (a ++ b).data = a.data ++ b.data := by
  cases a
  cases b
  rfl

theorem str_append_assoc (a b c : String) : a ++ b ++ c = a ++ (b ++ c) := by
  apply str_ext
  simp [str_data_append]

theorem str_append_empty (a : String) : a ++ "" = a := by
  apply str_ext
  simp [str_data_append]

/-- A string cannot equal `b ++ s` when `b` is not a prefix of it. -/
theorem ne_append_of_no_pre (a b : String) (h : b.data.isPrefixOf a.data = false)
    (s : String) : a ≠ b ++ s := by
  intro heq
  have hd : a.data = b.data ++ s.data := by
    rw [heq, str_data_append]
  have : b.data.isPrefixOf a.data = true := by
    rw [List.isPrefixOf_iff_prefix, hd]
    exact List.prefix_append b.data s.data
  rw [h] at this
  cases this

theorem pySplit_ne_nil (s : List Char) : pySplit s ≠ [] := by
  induction s with
  | nil => simp [pySplit]
  | cons c rest ih =>
    simp only [pySplit]
    by_cases hc : c = '\n'
    · simp [hc]
    · simp only [if_neg hc]
      cases hps : pySplit rest with
      | nil => simp
      | cons l ls => simp

/-- Splitting at newlines and joining with newlines is the identity. -/
theorem pyJoin_pySplit (s : List Char) : pyJoin (pySplit s) = s := by
  induction s with
  | nil => rfl
  | cons c rest ih =>
    simp only [pySplit]
    by_cases hc : c = '\n'
    · subst hc
      simp only [if_pos rfl]
      cases hps : pySplit rest with
      | nil => exact absurd hps (pySplit_ne_nil rest)
      | cons l ls =>
        rw [hps] at ih
        simp [pyJoin, ih]
    · simp only [if_neg hc]
      cases hps : pySplit rest with
      | nil => exact absurd hps (pySplit_ne_nil rest)
      | cons l ls =>
        rw [hps] at ih
        cases ls with
        | nil => simp_all [pyJoin]
        | cons l2 ls2 =>
          simp only [pyJoin] at ih ⊢
          rw [← ih, List.cons_append]

/-- Unfolding one loop iteration. -/
theorem solveLoop_succ (gen : Option String → String)
    (runner : Nat → String → Bool × String) (taskName ex : String)
    (fuel attempt : Nat) (prevErr lastCode : Option String) :
    solveLoop gen runner taskName ex (Nat.succ fuel) attempt prevErr lastCode =
      match runner attempt (gen prevErr) with
      | (true, output) =>
        Result.succeeded attempt (gen prevErr)
          (taskName ++ "_attempt_" ++ toString attempt ++ "." ++ ex) output
      | (false, output) =>
        solveLoop gen runner taskName ex fuel (attempt + 1) (some output)
          (some (gen prevErr)) := rfl

/-- The `previous_error` at attempt `k + 1` is the diagnostic of
attempt `k`, for every real attempt number `k ≥ 1`. -/
theorem prevErrAt_succ (gen : Option String → String)
    (runner : Nat → String → Bool × String) (k : Nat) (h : 1 ≤ k) :
    prevErrAt gen runner (k + 1) = some (diagAt gen runner k) := by
  match k, h with
  | Nat.succ j, _ => rfl

/-- Attempt-count bound for the loop: starting at attempt `a` with
`a + fuel = maxAttempts + 1`, the terminal record's `attempts` lies
between 1 and `maxAttempts`. -/
theorem solveLoop_attempts_bound (gen : Option String → String)
    (runner : Nat → String → Bool × String) (taskName ex : String) :
    ∀ (fuel attempt : Nat) (prevErr lastCode : Option String),
      1 ≤ attempt → attempt + fuel = maxAttempts + 1 →
      1 ≤ (solveLoop gen runner taskName ex fuel attempt prevErr lastCode).attempts ∧
        (solveLoop gen runner taskName ex fuel attempt prevErr lastCode).attempts ≤ maxAttempts := by
  intro fuel
  induction fuel with
  | zero =>
    intro attempt prevErr lastCode _ _
    simp only [solveLoop, Result.attempts]
    exact ⟨by decide, Nat.le_refl _⟩
  | succ fuel ih =>
    intro attempt prevErr lastCode h1 hsum
    rw [solveLoop_succ]
    cases hr : runner attempt (gen prevErr) with
    | mk b output =>
      cases b with
      | true =>
        simp only [Result.attempts]
        exact ⟨h1, by omega⟩
      | false =>
        simp only []
        exact ih (attempt + 1) (some output) (some (gen prevErr)) (by omega) (by omega)

/-- A passing runner verdict terminates the loop with the success
record of the current attempt. -/
theorem solveLoop_pass (gen : Option String → String)
    (runner : Nat → String → Bool × String) (taskName ex : String)
    (fuel attempt : Nat) (prevErr lastCode : Option String) (o : String)
    (h : runner attempt (gen prevErr) = (true, o)) :
    solveLoop gen runner taskName ex (fuel + 1) attempt prevErr lastCode =
      Result.succeeded attempt (gen prevErr)
        (taskName ++ "_attempt_" ++ toString attempt ++ "." ++ ex) o := by
  rw [solveLoop_succ, h]

/-- A failing runner verdict consumes the current attempt: the loop
moves on to the next attempt carrying the diagnostic forward. -/
theorem solveLoop_fail (gen : Option String → String)
    (runner : Nat → String → Bool × String) (taskName ex : String)
    (fuel attempt : Nat) (prevErr lastCode : Option String) (o : String)
    (h : runner attempt (gen prevErr) = (false, o)) :
    solveLoop gen runner taskName ex (fuel + 1) attempt prevErr lastCode =
      solveLoop gen runner taskName ex fuel (attempt + 1) (some o) (some (gen prevErr)) := by
  rw [solveLoop_succ, h]

theorem solveTask_def (ra : Bool) (complete : String → String)
    (runner : Nat → String → Bool × String) (task : String) :
    solveTask ra complete runner task =
      solveLoop (taskGen ra complete task) runner (task_name (resolve ra task).2)
        (extFor (resolve ra task).1) 3 1 none none := rfl

/-- Claim C1: for every task, if the runner reports pass on attempt `k`
(`1 ≤ k ≤ 3`) after failing attempts before it, then `solve_task`
returns a record with `success = true` and `attempts = k`; and the
result does not depend on the runner beyond attempt `k` (no test step
after attempt `k` is executed — in the functional model, the terminal
record is unchanged under any replacement of the runner's behaviour at
attempts later than `k`). -/
theorem claim_C1 (ra : Bool) (complete : String → String)
    (runner : Nat → String → Bool × String) (task : String) (k : Nat)
    (hk1 : 1 ≤ k) (hk3 : k ≤ maxAttempts)
    (hfail : ∀ j, 1 ≤ j → j < k → passAt (taskGen ra complete task) runner j = false)
    (hpass : passAt (taskGen ra complete task) runner k = true) :
    (solveTask ra complete runner task).success = true ∧
    (solveTask ra complete runner task).attempts = k ∧
    ∀ runner2 : Nat → String → Bool × String,
      (∀ j, j ≤ k → runner2 j = runner j) →
      solveTask ra complete runner2 task = solveTask ra complete runner task := by
  have hk3' : k ≤ 3 := hk3
  interval_cases k
  · rcases h1 : runner 1 (taskGen ra complete task none) with ⟨b1, o1⟩
    have hp1 : passAt (taskGen ra complete task) runner 1 = b1 := by
      simp [passAt, outcomeAt, codeAt, prevErrAt, h1]
    rw [hp1] at hpass
    subst hpass
    have hres := Eq.trans (solveTask_def ra complete runner task)
      (solveLoop_pass (taskGen ra complete task) runner _ _ 2 1 none none o1 h1)
    refine ⟨by rw [hres]; rfl, by rw [hres]; rfl, ?_⟩
    intro runner2 hr2
    have h1' : runner2 1 (taskGen ra complete task none) = (true, o1) := by
      rw [hr2 1 (by omega)]
      exact h1
    have hres2 := Eq.trans (solveTask_def ra complete runner2 task)
      (solveLoop_pass (taskGen ra complete task) runner2 _ _ 2 1 none none o1 h1')
    rw [hres2, hres]
  · rcases h1 : runner 1 (taskGen ra complete task none) with ⟨b1, o1⟩
    have hp1 : passAt (taskGen ra complete task) runner 1 = b1 := by
      simp [passAt, outcomeAt, codeAt, prevErrAt, h1]
    have hb1 : b1 = false := by
      rw [← hp1]
      exact hfail 1 (by omega) (by omega)
    subst hb1
    rcases h2 : runner 2 (taskGen ra complete task (some o1)) with ⟨b2, o2⟩
    have hp2 : passAt (taskGen ra complete task) runner 2 = b2 := by
      simp [passAt, outcomeAt, codeAt, prevErrAt, h1, h2]
    rw [hp2] at hpass
    subst hpass
    have hres := Eq.trans (Eq.trans (solveTask_def ra complete runner task)
        (solveLoop_fail (taskGen ra complete task) runner _ _ 2 1 none none o1 h1))
      (solveLoop_pass (taskGen ra complete task) runner _ _ 1 2 (some o1)
        (some (taskGen ra complete task none)) o2 h2)
    refine ⟨by rw [hres]; rfl, by rw [hres]; rfl, ?_⟩
    intro runner2 hr2
    have h1' : runner2 1 (taskGen ra complete task none) = (false, o1) := by
      rw [hr2 1 (by omega)]
      exact h1
    have h2' : runner2 2 (taskGen ra complete task (some o1)) = (true, o2) := by
      rw [hr2 2 (by omega)]
      exact h2
    have hres2 := Eq.trans (Eq.trans (solveTask_def ra complete runner2 task)
        (solveLoop_fail (taskGen ra complete task) runner2 _ _ 2 1 none none o1 h1'))
      (solveLoop_pass (taskGen ra complete task) runner2 _ _ 1 2 (some o1)
        (some (taskGen ra complete task none)) o2 h2')
    rw [hres2, hres]
  · rcases h1 : runner 1 (taskGen ra complete task none) with ⟨b1, o1⟩
    have hp1 : passAt (taskGen ra complete task) runner 1 = b1 := by
      simp [passAt, outcomeAt, codeAt, prevErrAt, h1]
    have hb1 : b1 = false := by
      rw [← hp1]
      exact hfail 1 (by omega) (by omega)
    subst hb1
    rcases h2 : runner 2 (taskGen ra complete task (some o1)) with ⟨b2, o2⟩
    have hp2 : passAt (taskGen ra complete task) runner 2 = b2 := by
      simp [passAt, outcomeAt, codeAt, prevErrAt, h1, h2]
    have hb2 : b2 = false := by
      rw [← hp2]
      exact hfail 2 (by omega) (by omega)
    subst hb2
    rcases h3 : runner 3 (taskGen ra complete task (some o2)) with ⟨b3, o3⟩
    have hp3 : passAt (taskGen ra complete task) runner 3 = b3 := by
      simp [passAt, outcomeAt, codeAt, prevErrAt, h1, h2, h3]
    rw [hp3] at hpass
    subst hpass
    have hres := Eq.trans (Eq.trans (Eq.trans (solveTask_def ra complete runner task)
          (solveLoop_fail (taskGen ra complete task) runner _ _ 2 1 none none o1 h1))
        (solveLoop_fail (taskGen ra complete task) runner _ _ 1 2 (some o1)
          (some (taskGen ra complete task none)) o2 h2))
      (solveLoop_pass (taskGen ra complete task) runner _ _ 0 3 (some o2)
        (some (taskGen ra complete task (some o1))) o3 h3)
    refine ⟨by rw [hres]; rfl, by rw [hres]; rfl, ?_⟩
    intro runner2 hr2
    have h1' : runner2 1 (taskGen ra complete task none) = (false, o1) := by
      rw [hr2 1 (by omega)]
      exact h1
    have h2' : runner2 2 (taskGen ra complete task (some o1)) = (false, o2) := by
      rw [hr2 2 (by omega)]
      exact h2
    have h3' : runner2 3 (taskGen ra complete task (some o2)) = (true, o3) := by
      rw [hr2 3 (by omega)]
      exact h3
    have hres2 := Eq.trans (Eq.trans (Eq.trans (solveTask_def ra complete runner2 task)
          (solveLoop_fail (taskGen ra complete task) runner2 _ _ 2 1 none none o1 h1'))
        (solveLoop_fail (taskGen ra complete task) runner2 _ _ 1 2 (some o1)
          (some (taskGen ra complete task none)) o2 h2'))
      (solveLoop_pass (taskGen ra complete task) runner2 _ _ 0 3 (some o2)
        (some (taskGen ra complete task (some o1))) o3 h3')
    rw [hres2, hres]

/-- Witness for C1 at a concrete input: a runner that passes on the
first attempt yields a success record with one attempt. -/
theorem claim_C1_witness :
    (solveTask false (fun _ => "print(1)") (fun _ _ => (true, "ok")) "sort a list").success = true ∧
    (solveTask false (fun _ => "print(1)") (fun _ _ => (true, "ok")) "sort a list").attempts = 1 := by
  have h := claim_C1 false (fun _ => "print(1)") (fun _ _ => (true, "ok")) "sort a list" 1
    (by decide) (by decide) (fun j hj hlt => absurd (Nat.lt_of_le_of_lt hj hlt) (by omega)) rfl
  exact ⟨h.1, h.2.1⟩

/-- Claim C2: if the runner reports fail on every attempt up to the
ceiling, `solve_task` returns the failure record with
`success = false`, `attempts = maxAttempts`, and the final diagnostic
(and final code) of the third — last — attempt. -/
theorem claim_C2 (ra : Bool) (complete : String → String)
    (runner : Nat → String → Bool × String) (task : String)
    (hfail : ∀ j, 1 ≤ j → j ≤ maxAttempts →
      passAt (taskGen ra complete task) runner j = false) :
    solveTask ra complete runner task =
      Result.failed maxAttempts
        (some (diagAt (taskGen ra complete task) runner maxAttempts))
        (some (codeAt (taskGen ra complete task) runner maxAttempts)) ∧
    (solveTask ra complete runner task).success = false ∧
    (solveTask ra complete runner task).attempts = maxAttempts := by
  rcases h1 : runner 1 (taskGen ra complete task none) with ⟨b1, o1⟩
  have hp1 : passAt (taskGen ra complete task) runner 1 = b1 := by
    simp [passAt, outcomeAt, codeAt, prevErrAt, h1]
  have hb1 : b1 = false := by
    rw [← hp1]
    exact hfail 1 (by omega) (by decide)
  subst hb1
  rcases h2 : runner 2 (taskGen ra complete task (some o1)) with ⟨b2, o2⟩
  have hp2 : passAt (taskGen ra complete task) runner 2 = b2 := by
    simp [passAt, outcomeAt, codeAt, prevErrAt, h1, h2]
  have hb2 : b2 = false := by
    rw [← hp2]
    exact hfail 2 (by omega) (by decide)
  subst hb2
  rcases h3 : runner 3 (taskGen ra complete task (some o2)) with ⟨b3, o3⟩
  have hp3 : passAt (taskGen ra complete task) runner 3 = b3 := by
    simp [passAt, outcomeAt, codeAt, prevErrAt, h1, h2, h3]
  have hb3 : b3 = false := by
    rw [← hp3]
    exact hfail 3 (by omega) (by decide)
  subst hb3
  have hdiag : diagAt (taskGen ra complete task) runner 3 = o3 := by
    simp [diagAt, outcomeAt, codeAt, prevErrAt, h1, h2, h3]
  have hcode : codeAt (taskGen ra complete task) runner 3 =
      taskGen ra complete task (some o2) := by
    simp [codeAt, prevErrAt, h1, h2]
  have hres := Eq.trans (Eq.trans (Eq.trans (solveTask_def ra complete runner task)
        (solveLoop_fail (taskGen ra complete task) runner _ _ 2 1 none none o1 h1))
      (solveLoop_fail (taskGen ra complete task) runner _ _ 1 2 (some o1)
        (some (taskGen ra complete task none)) o2 h2))
    (solveLoop_fail (taskGen ra complete task) runner _ _ 0 3 (some o2)
      (some (taskGen ra complete task (some o1))) o3 h3)
  have hfin : solveTask ra complete runner task =
      Result.failed maxAttempts (some o3) (some (taskGen ra complete task (some o2))) :=
    hres
  refine ⟨?_, by rw [hfin]; rfl, by rw [hfin]; rfl⟩
  show solveTask ra complete runner task =
    Result.failed maxAttempts (some (diagAt (taskGen ra complete task) runner 3))
      (some (codeAt (taskGen ra complete task) runner 3))
  rw [hdiag, hcode]
  exact hfin

/-- Witness for C2 at a concrete input: a runner that always fails
yields the failure record after three attempts. -/
theorem claim_C2_witness :
    (solveTask false (fun _ => "print(1)") (fun _ _ => (false, "boom")) "sort a list").success = false ∧
    (solveTask false (fun _ => "print(1)") (fun _ _ => (false, "boom")) "sort a list").attempts = maxAttempts := by
  have h := claim_C2 false (fun _ => "print(1)") (fun _ _ => (false, "boom")) "sort a list"
    (fun j hj hj3 => rfl)
  exact ⟨h.2.1, h.2.2⟩

/-- Claim C3: for every task, completion client and runner behaviour,
`solve_task` produces exactly one terminal record (it is a function into
`Result`), and the `attempts` it reports lies between 1 and the ceiling
of 3.  The attempt counter is monotone by construction: the loop only
ever moves from attempt `a` to attempt `a + 1` (`solveLoop_fail`). -/
theorem claim_C3 (ra : Bool) (complete : String → String)
    (runner : Nat → String → Bool × String) (task : String) :
    1 ≤ (solveTask ra complete runner task).attempts ∧
      (solveTask ra complete runner task).attempts ≤ maxAttempts := by
  rw [solveTask_def]
  exact solveLoop_attempts_bound (taskGen ra complete task) runner
    (task_name (resolve ra task).2) (extFor (resolve ra task).1) 3 1 none none
    (by omega) (by decide)

/-- Claim C4: when attempt `k < 3` fails with diagnostic `d`, the
prompt built for attempt `k + 1` contains `d` verbatim, embedded in the
correction instruction passed to the completion call.  (When the
diagnostic is the empty string, Python's truthiness test skips the
correction instruction; the empty string is still trivially contained.) -/
theorem claim_C4 (ra : Bool) (complete : String → String)
    (runner : Nat → String → Bool × String) (task : String) (k : Nat)
    (hk1 : 1 ≤ k) (hk : k < maxAttempts)
    (hfail : ∀ j, 1 ≤ j → j ≤ k → passAt (taskGen ra complete task) runner j = false) :
    ∃ pre post, promptAt ra complete runner task (k + 1) =
      pre ++ diagAt (taskGen ra complete task) runner k ++ post := by
  have hpe : prevErrAt (taskGen ra complete task) runner (k + 1) =
      some (diagAt (taskGen ra complete task) runner k) :=
    prevErrAt_succ _ _ k hk1
  simp only [promptAt, hpe, fullPrompt]
  cases hdE : diagAt (taskGen ra complete task) runner k == "" with
  | true =>
    have hd0 : diagAt (taskGen ra complete task) runner k = "" := eq_of_beq hdE
    refine ⟨basePrompt (resolve ra task).2 (resolve ra task).1, "", ?_⟩
    rw [if_pos rfl, hd0, str_append_empty, str_append_empty]
  | false =>
    refine ⟨basePrompt (resolve ra task).2 (resolve ra task).1 ++ errIntro, errOutro, ?_⟩
    rw [if_neg (by simp)]
    apply str_ext
    simp [str_data_append, List.append_assoc]

/-- Witness for C4 at a concrete input: a first attempt failing with
diagnostic "boom" makes the second prompt contain "boom". -/
theorem claim_C4_witness :
    ∃ pre post,
      promptAt false (fun p => p) (fun _ _ => (false, "boom")) "sort a list" 2 =
        pre ++ diagAt (taskGen false (fun p => p) "sort a list") (fun _ _ => (false, "boom")) 1 ++ post :=
  claim_C4 false (fun p => p) (fun _ _ => (false, "boom")) "sort a list" 1
    (by decide) (by decide) (fun j hj hjk => rfl)

/-- Claim C5: when `cargo build` exits nonzero, `test_rust_code`
returns `(false, "Build failed:\n" ++ stderr)` — a diagnostic containing
the build process's standard-error stream — and the `cargo test` step is
never consulted: the result is invariant under every possible test-step
outcome, so the test step runs only after a zero build exit. -/
theorem claim_C5 (env : RustEnv) (code : String) (rc : Int) (out err : String)
    (hra : env.rustAvailable = true) (hexn : env.exn = none)
    (hb : env.buildOutcome = ProcOutcome.completed rc out err) (hrc : rc ≠ 0) :
    test_rust_code env code = (false, buildFailedMsg err) ∧
    (∃ pre post, buildFailedMsg err = pre ++ err ++ post) ∧
    (∀ t : ProcOutcome,
      test_rust_code { env with testOutcome := t } code = test_rust_code env code) := by
  refine ⟨?_, ⟨"Build failed:\n", "", ?_⟩, ?_⟩
  · simp [test_rust_code, hra, hexn, hb, hrc]
  · rw [str_append_empty]
    rfl
  · intro t
    simp [test_rust_code, hra, hexn, hb, hrc]

/-- Witness for C5 at a concrete input: a build that exits 101 with
stderr "error[E0425]" produces the build-failure diagnostic. -/
theorem claim_C5_witness :
    test_rust_code ⟨true, none, ProcOutcome.completed 101 "" "error[E0425]",
        ProcOutcome.completed 0 "" ""⟩ "fn main() \x7b\x7d" =
      (false, buildFailedMsg "error[E0425]") :=
  (claim_C5 ⟨true, none, ProcOutcome.completed 101 "" "error[E0425]",
      ProcOutcome.completed 0 "" ""⟩ "fn main() \x7b\x7d" 101 "" "error[E0425]"
    rfl rfl rfl (by decide)).1

/-- Claim C6: a timeout at any build/run/test step makes the runner
return `(false, ·)` with the dedicated timeout diagnostic of its path;
that diagnostic differs from every build-failure, syntax-error,
runtime-error and test-failure diagnostic; and a failing attempt (hence
in particular a timed-out one) is consumed by the controller, which
proceeds to the next attempt (or, fuel exhausted, to the terminal
failure record). -/
theorem claim_C6 :
    (∀ (env : RustEnv) (code : String),
      env.rustAvailable = true → env.exn = none →
      env.buildOutcome = ProcOutcome.timedOut →
      test_rust_code env code = (false, rustTimeoutMsg)) ∧
    (∀ (env : RustEnv) (code : String) (out err : String),
      env.rustAvailable = true → env.exn = none →
      env.buildOutcome = ProcOutcome.completed 0 out err →
      env.testOutcome = ProcOutcome.timedOut →
      test_rust_code env code = (false, rustTimeoutMsg)) ∧
    (∀ (env : PyEnv) (code : String),
      env.exn = none → env.compileOutcome = ProcOutcome.timedOut →
      test_python_code env code = (false, pyTimeoutMsg)) ∧
    (∀ (env : PyEnv) (code : String) (out err : String),
      env.exn = none → env.compileOutcome = ProcOutcome.completed 0 out err →
      env.runOutcome = ProcOutcome.timedOut →
      test_python_code env code = (false, pyTimeoutMsg)) ∧
    (∀ (env : PyEnv) (code : String) (out err out2 err2 : String),
      env.exn = none → env.compileOutcome = ProcOutcome.completed 0 out err →
      env.runOutcome = ProcOutcome.completed 0 out2 err2 →
      (containsSubstr code "pytest" || containsSubstr code "unittest") = true →
      env.pytestOutcome = ProcOutcome.timedOut →
      test_python_code env code = (false, pyTimeoutMsg)) ∧
    (∀ (env : PyEnv) (code : String) (out err out2 err2 out3 err3 : String) (rc3 : Int),
      env.exn = none → env.compileOutcome = ProcOutcome.completed 0 out err →
      env.runOutcome = ProcOutcome.completed 0 out2 err2 →
      (containsSubstr code "pytest" || containsSubstr code "unittest") = true →
      env.pytestOutcome = ProcOutcome.completed rc3 out3 err3 → rc3 ≠ 0 →
      env.unittestOutcome = ProcOutcome.timedOut →
      test_python_code env code = (false, pyTimeoutMsg)) ∧
    (∀ s : String,
      rustTimeoutMsg ≠ buildFailedMsg s ∧ rustTimeoutMsg ≠ testsFailedMsg s ∧
      pyTimeoutMsg ≠ syntaxErrorMsg s ∧ pyTimeoutMsg ≠ runtimeErrorMsg s ∧
      pyTimeoutMsg ≠ testsFailedMsg s) ∧
    (∀ (gen : Option String → String) (runner : Nat → String → Bool × String)
        (taskName ex : String) (fuel attempt : Nat)
        (prevErr lastCode : Option String) (d : String),
      runner attempt (gen prevErr) = (false, d) →
      solveLoop gen runner taskName ex (fuel + 1) attempt prevErr lastCode =
        solveLoop gen runner taskName ex fuel (attempt + 1) (some d)
          (some (gen prevErr))) := by
  refine ⟨?_, ?_, ?_, ?_, ?_, ?_, ?_, ?_⟩
  · intro env code hra hexn hb
    simp [test_rust_code, hra, hexn, hb]
  · intro env code out err hra hexn hb ht
    simp [test_rust_code, hra, hexn, hb, ht]
  · intro env code hexn hc
    simp [test_python_code, hexn, hc]
  · intro env code out err hexn hc hr
    simp [test_python_code, hexn, hc, hr]
  · intro env code out err out2 err2 hexn hc hr hm hp
    simp [test_python_code, hexn, hc, hr, hm, hp]
  · intro env code out err out2 err2 out3 err3 rc3 hexn hc hr hm hp hrc3 hu
    simp [test_python_code, hexn, hc, hr, hm, hp, hrc3, hu]
  · intro s
    exact ⟨ne_append_of_no_pre _ _ (by decide) s, ne_append_of_no_pre _ _ (by decide) s,
      ne_append_of_no_pre _ _ (by decide) s, ne_append_of_no_pre _ _ (by decide) s,
      ne_append_of_no_pre _ _ (by decide) s⟩
  · intro gen runner taskName ex fuel attempt prevErr lastCode d h
    exact solveLoop_fail gen runner taskName ex fuel attempt prevErr lastCode d h

/-- Witness for C6 at a concrete input: a timed-out `cargo build`
produces the dedicated timeout diagnostic. -/
theorem claim_C6_witness :
    test_rust_code ⟨true, none, ProcOutcome.timedOut, ProcOutcome.completed 0 "" ""⟩
        "fn main() \x7b\x7d" = (false, rustTimeoutMsg) :=
  claim_C6.1 ⟨true, none, ProcOutcome.timedOut, ProcOutcome.completed 0 "" ""⟩
    "fn main() \x7b\x7d" rfl rfl rfl

/-- Counterexample to claim C7 as stated: the task
"write quicksort in RUST" names the non-default language (its lowercase
form contains "rust"), and with the toolchain absent the language does
resolve to "python" — but the task text is NOT rewritten: the
`replace`-chain only substitutes the exact spellings "rust" and "Rust",
so the occurrence "RUST" survives and the resolved task still mentions
the non-default language's keyword. -/
theorem claim_C7_counterexample :
    resolve false "write quicksort in RUST" = ("python", "write quicksort in RUST") ∧
    containsSubstr (lower "write quicksort in RUST") "rust" = true ∧
    containsSubstr (lower (resolve false "write quicksort in RUST").2) "rust" = true := by
  decide

/-- Claim C7 as amended: for a task whose lowercase form contains
"rust", when the Rust toolchain is unavailable the resolved language is
"python" and the task text is rewritten by replacing every occurrence of
the exact spellings "rust" and "Rust" with "python"/"Python"
respectively (occurrences in any other letter case are left
unchanged). -/
theorem claim_C7 (task : String)
    (h : containsSubstr (lower task) "rust" = true) :
    (resolve false task).1 = "python" ∧
    (resolve false task).2 =
      strReplace (strReplace task "rust" "python") "Rust" "Python" := by
  simp [resolve, h]

/-- Witness for C7 at a concrete input: "write quicksort in Rust" is
rewritten (to "write quicksort in Python") and resolved to python. -/
theorem claim_C7_witness :
    (resolve false "write quicksort in Rust").1 = "python" ∧
    (resolve false "write quicksort in Rust").2 =
      strReplace (strReplace "write quicksort in Rust" "rust" "python") "Rust" "Python" :=
  claim_C7 "write quicksort in Rust" (by decide)

/-- Counterexample to claim C8 as stated: for the target language Rust,
the mock completion client covers at most two of the four canonical
task shapes.  The shapes "fibonacci with memoization" and "binary search
tree" both fall through to the generic Rust hello-world program, whose
text does not match those shapes at all (it mentions neither "fib" nor
"tree"), so no three of the four canonical shapes produce
shape-matching source for Rust. -/
theorem claim_C8_counterexample :
    mock_create "implement fibonacci with memoization in Rust" = mockRustHello ∧
    containsSubstr (lower mockRustHello) "fib" = false ∧
    mock_create "create a binary search tree in Rust" = mockRustHello ∧
    containsSubstr (lower mockRustHello) "tree" = false :=
  ⟨rfl, by decide, rfl, by decide⟩

/-- Claim C8 as amended: the deterministic fallback generator returns,
for Python, shape-matching source with an embedded `unittest` test for
all four canonical shapes; for Rust it does so (with an embedded
`#[cfg(test)]` test) only for the shapes "quicksort" and "hello world"
(all other Rust tasks receive the hello-world program).  Syntactic
validity of the emitted Rust/Python text is outside the embedding. -/
theorem claim_C8 :
    (mock_create "write quicksort in Python" = mockPyQuicksort ∧
      containsSubstr mockPyQuicksort "def quicksort" = true ∧
      containsSubstr mockPyQuicksort "unittest" = true) ∧
    (mock_create "create a binary search tree in Python" = mockPyBST ∧
      containsSubstr mockPyBST "class BST" = true ∧
      containsSubstr mockPyBST "unittest" = true) ∧
    (mock_create "implement fibonacci with memoization in Python" = mockPyFib ∧
      containsSubstr mockPyFib "fibonacci_memo" = true ∧
      containsSubstr mockPyFib "unittest" = true) ∧
    (mock_create "print hello world in Python" = mockPyHello ∧
      containsSubstr mockPyHello "def hello" = true ∧
      containsSubstr mockPyHello "unittest" = true) ∧
    (mock_create "write quicksort in Rust" = mockRustQuicksort ∧
      containsSubstr mockRustQuicksort "fn quicksort" = true ∧
      containsSubstr mockRustQuicksort "#[cfg(test)]" = true) ∧
    (mock_create "print hello world in Rust" = mockRustHello ∧
      containsSubstr mockRustHello "fn main" = true ∧
      containsSubstr mockRustHello "#[cfg(test)]" = true) :=
  ⟨⟨rfl, by decide, by decide⟩, ⟨rfl, by decide, by decide⟩, ⟨rfl, by decide, by decide⟩,
    ⟨rfl, by decide, by decide⟩, ⟨rfl, by decide, by decide⟩, ⟨rfl, by decide, by decide⟩⟩

theorem str_mk_data (s : String) : String.mk s.data = s := by
  cases s
  rfl

/-- Claim C9: `create_rust_project` writes to `main.rs` exactly the
input lines whose stripped form does not both start with `//` and
contain `=` or `[`.  Consequently the ordinary comment
"// index arr[0] here" is removed even though it declares no dependency,
while an input none of whose lines match the predicate is written back
unchanged. -/
theorem claim_C9 :
    (∀ code : String,
      mainRsContent code =
        String.mk (pyJoin ((pySplit code.data).filter (fun l => ! droppedLine l)))) ∧
    (mainRsContent "fn main() \x7b\x7d\n// index arr[0] here\nlet x = 5;" =
      "fn main() \x7b\x7d\nlet x = 5;") ∧
    (∀ code : String, (∀ l ∈ pySplit code.data, droppedLine l = false) →
      mainRsContent code = code) := by
  refine ⟨fun code => rfl, by decide, ?_⟩
  intro code h
  show String.mk (pyJoin ((pySplit code.data).filter (fun l => ! droppedLine l))) = code
  have hf : (pySplit code.data).filter (fun l => ! droppedLine l) = pySplit code.data :=
    List.filter_eq_self.mpr (fun a ha => by rw [h a ha]; rfl)
  rw [hf, pyJoin_pySplit, str_mk_data]

/-- Witness for C9 at a concrete input: a source with no
dependency-comment line passes through `create_rust_project`
unchanged. -/
theorem claim_C9_witness :
    mainRsContent "fn main() \x7b\n    println!(\"hi\");\n\x7d" =
      "fn main() \x7b\n    println!(\"hi\");\n\x7d" :=
  claim_C9.2.2 "fn main() \x7b\n    println!(\"hi\");\n\x7d" (by decide)

/-- Claim C10: the audit filename for attempt `n` is the first 30
characters of the lowercased task text with every non-alphanumeric
character replaced by `_`, then `_attempt_`, the attempt number and the
language extension; two distinct task texts agreeing on the first 30
sanitized characters therefore produce identical filenames for equal
attempt numbers, so the later task's attempt file overwrites the
earlier one's.  The collision example below also reproduces the
`implement_fibonacci_with_memoi_attempt_1.py` artifact checked into the
repository. -/
theorem claim_C10 :
    (∀ (task language : String) (n : Nat),
      attemptFilename task language n =
        String.mk (((lower task).data.map subChar).take 30) ++ "_attempt_" ++
          toString n ++ "." ++ (if language == "rust" then "rs" else "py")) ∧
    "implement fibonacci with memoization in Python" ≠
      "implement fibonacci with memoization in Java" ∧
    attemptFilename "implement fibonacci with memoization in Python" "python" 1 =
      attemptFilename "implement fibonacci with memoization in Java" "python" 1 ∧
    attemptFilename "implement fibonacci with memoization in Python" "python" 1 =
      "implement_fibonacci_with_memoi_attempt_1.py" :=
  ⟨fun _ _ _ => rfl, by decide, by decide, by decide⟩

end CA
